import Mathlib

/-!
Verification of the AI-deal-Neo backend (Pyzeur-ColonyLab/AI-deal-Neo).

This file gives a shallow embedding of the parts of the Python backend that
the design document talks about, and proves (or refutes) the documented
properties against that embedding:

* `src/backend/utils/monitoring.py`      — the `APIMonitor` aggregate.
* `src/backend/middleware/rate_limiter.py` — the dual-window `RateLimiter`.
* `src/backend/services/model_manager.py`  — the exclusive `ModelManager`.
* `src/backend/services/hf_model_service.py` — the `HFModelService`
  load/unload/generate/parameter logic, with the external Hugging Face
  calls abstracted as an oracle record.
* `src/backend/services/parameter_manager.py` and
  `src/backend/api/routes.py` — persisted parameters and the HTTP routes.
* `src/backend/main_improved.py` — the middleware pipeline composition.

Python floats (timestamps, durations, temperatures) are embedded as `ℚ`;
Python dicts keyed by client/model id are embedded as functions or
association lists; a raised exception is an explicit error value.
-/

namespace AIdealNeo

/-! ## Monitor (src/backend/utils/monitoring.py)

`APIMonitor.__init__` stores only the four running counters; every derived
statistic is computed inside `get_stats`.  The `threading.Lock` only makes
the updates atomic and has no sequential content, so it is not modelled.
-/

/-- The stored counters of `APIMonitor`: `request_count`, `error_count`,
`total_response_time` and `start_time`. -/
structure APIMonitor where
  request_count : Nat
  error_count : Nat
  total_response_time : ℚ
  start_time : ℚ
deriving DecidableEq

/-- `APIMonitor.__init__` at clock value `now`: all counters start at zero. -/
def APIMonitor.init (now : ℚ) : APIMonitor :=
  { request_count := 0, error_count := 0, total_response_time := 0, start_time := now }

/-- `APIMonitor.record_request(response_time, success)`. -/
def APIMonitor.record_request (m : APIMonitor) (response_time : ℚ) (success : Bool) :
    APIMonitor :=
  { m with
    request_count := m.request_count + 1
    total_response_time := m.total_response_time + response_time
    error_count := if success then m.error_count else m.error_count + 1 }

/-- The dictionary returned by `APIMonitor.get_stats`. -/
structure MonitorStats where
  uptime_seconds : ℚ
  total_requests : Nat
  error_count : Nat
  error_rate_percent : ℚ
  avg_response_time_seconds : ℚ
  requests_per_second : ℚ
deriving DecidableEq

/-- `APIMonitor.get_stats` read at clock value `now`: the averages and the
rate are derived from the stored counters on every call, each division
guarded by a positivity test exactly as in the Python conditional
expressions. -/
def APIMonitor.get_stats (m : APIMonitor) (now : ℚ) : MonitorStats :=
  let uptime : ℚ := now - m.start_time
  { uptime_seconds := uptime
    total_requests := m.request_count
    error_count := m.error_count
    error_rate_percent :=
      if 0 < m.request_count then (m.error_count : ℚ) / (m.request_count : ℚ) * 100 else 0
    avg_response_time_seconds :=
      if 0 < m.request_count then m.total_response_time / (m.request_count : ℚ) else 0
    requests_per_second :=
      if 0 < uptime then (m.request_count : ℚ) / uptime else 0 }

/-- Replay a list of `(response_time, success)` outcomes through
`record_request`. -/
def runMonitor (m : APIMonitor) : List (ℚ × Bool) → APIMonitor
  | [] => m
  | o :: os => runMonitor (m.record_request o.1 o.2) os

/-! ## Admission gate (src/backend/middleware/rate_limiter.py)

`RateLimiter` keeps, per client id, two `deque`s of request timestamps
(appended on the right, popped from the left), one per 60 second window and
one per 3600 second window.  The `defaultdict(deque)` is embedded as a total
function from client ids to lists (missing key = empty list), oldest entry
first.  Timestamps (`time.time()`) are embedded as `ℚ`.
-/

/-- State of `RateLimiter`: the two capacities fixed by `__init__` and the
two per-client timestamp sequences. -/
structure RateLimiter where
  requests_per_minute : Nat
  requests_per_hour : Nat
  minute_requests : String → List ℚ
  hour_requests : String → List ℚ

/-- `RateLimiter(requests_per_minute, requests_per_hour)`: both timestamp
maps start empty. -/
def RateLimiter.new (requests_per_minute requests_per_hour : Nat) : RateLimiter :=
  { requests_per_minute := requests_per_minute
    requests_per_hour := requests_per_hour
    minute_requests := fun _ => []
    hour_requests := fun _ => [] }

/-- The module-level `rate_limiter = RateLimiter()` singleton, built with the
default capacities 60 per minute and 1000 per hour. -/
def defaultRateLimiter : RateLimiter := RateLimiter.new 60 1000

/-- `RateLimiter._cleanup_old_requests` on a single deque: pop entries from
the left while `current_time - entry > window_seconds`.  The Python loop is
exactly `dropWhile` on an oldest-first list.  (The Python method runs this
for every key of the dict; the callers below apply it pointwise.) -/
def cleanupOld (current_time window_seconds : ℚ) (l : List ℚ) : List ℚ :=
  l.dropWhile (fun t => decide (window_seconds < current_time - t))

/-- `RateLimiter.is_allowed(client_id)` at clock value `now`.  Both maps are
purged, the minute capacity is checked first, then the hour capacity; only
when both checks pass is `now` appended to both of the clients sequences.
Returns the boolean verdict together with the mutated state. -/
def RateLimiter.is_allowed (s : RateLimiter) (now : ℚ) (client_id : String) :
    Bool × RateLimiter :=
  let minute := fun k => cleanupOld now 60 (s.minute_requests k)
  let hour := fun k => cleanupOld now 3600 (s.hour_requests k)
  if s.requests_per_minute ≤ (minute client_id).length then
    (false, { s with minute_requests := minute, hour_requests := hour })
  else if s.requests_per_hour ≤ (hour client_id).length then
    (false, { s with minute_requests := minute, hour_requests := hour })
  else
    (true, { s with
      minute_requests := Function.update minute client_id (minute client_id ++ [now])
      hour_requests := Function.update hour client_id (hour client_id ++ [now]) })

/-- Replay a list of admission checks for one client, collecting the
verdicts. -/
def runClient (s : RateLimiter) (c : String) : List ℚ → List Bool × RateLimiter
  | [] => ([], s)
  | t :: ts =>
    let r := s.is_allowed t c
    let rest := runClient r.2 c ts
    (r.1 :: rest.1, rest.2)

/-- The limiter state in which one client `c` owns the timestamp list `l` in
both windows and every other client is untouched, at the default
capacities.  Every state reachable from `defaultRateLimiter` by requests of
a single client has this shape. -/
def clientState (c : String) (l : List ℚ) : RateLimiter :=
  { requests_per_minute := 60
    requests_per_hour := 1000
    minute_requests := fun k => if k = c then l else []
    hour_requests := fun k => if k = c then l else [] }

/-! ## Model manager (src/backend/services/model_manager.py)

`ModelManager` keeps a `models` dict of `ModelInfo` records and the
`loaded_model_id` of the single model allowed in memory.  Only the `status`
field of a `ModelInfo` takes part in the lifecycle logic, so the dict is
embedded as an association list from model id to status (unique keys,
insertion order).  The persisted `models.json` mirror, the download and
listing helpers, and the unused `config` argument are not modelled.
-/

/-- Truthiness of a Python `Optional[str]`: `None` and the empty string are
falsy. -/
def optStrTruthy : Option String → Bool
  | none => false
  | some s => !(s == "")

/-- State of `ModelManager`: the statuses dict and `loaded_model_id`. -/
structure ModelManagerState where
  models : List (String × String)
  loaded_model_id : Option String
deriving DecidableEq

/-- `model_id in self.models`. -/
def hasModel (ms : List (String × String)) (model_id : String) : Bool :=
  ms.any (fun p => p.1 = model_id)

/-- `self.models[model_id].status = st` on the dict embedding. -/
def setStatus (ms : List (String × String)) (model_id st : String) :
    List (String × String) :=
  ms.map (fun p => if p.1 = model_id then (p.1, st) else p)

/-- Status lookup `self.models[model_id].status`. -/
def statusOf (ms : List (String × String)) (model_id : String) : Option String :=
  (ms.find? (fun p => p.1 = model_id)).map Prod.snd

/-- `ModelManager.unload_model(model_id)`: only when `model_id` is the
loaded one does it mark the model `"available"` and clear
`loaded_model_id`, returning `True`; otherwise it returns `False` and
changes nothing. -/
def ModelManagerState.unload_model (s : ModelManagerState) (model_id : String) :
    ModelManagerState × Bool :=
  if s.loaded_model_id = some model_id then
    ({ models := setStatus s.models model_id "available", loaded_model_id := none }, true)
  else (s, false)

/-- The implicit-unload phase of `ModelManager.load_model`: when a truthy
`loaded_model_id` differs from `model_id` that model is first unloaded
(`if self.loaded_model_id and self.loaded_model_id != model_id`). -/
def loadTarget (s : ModelManagerState) (model_id : String) : ModelManagerState :=
  match s.loaded_model_id with
  | none => s
  | some cur => if cur ≠ "" ∧ cur ≠ model_id then (s.unload_model cur).1 else s

/-- `ModelManager.load_model(model_id)`: an unknown id raises `ValueError`;
otherwise, after the implicit-unload phase, the requested model is marked
`"loaded"` and recorded as the loaded one.  (The `config` argument is
unused by the Python method and omitted.) -/
def ModelManagerState.load_model (s : ModelManagerState) (model_id : String) :
    Except String ModelManagerState :=
  if hasModel s.models model_id = false then
    Except.error ("Model " ++ model_id ++ " not found")
  else
    Except.ok { models := setStatus (loadTarget s model_id).models model_id "loaded",
                loaded_model_id := some model_id }

/-- One lifecycle call against the manager; a `ValueError` from
`load_model` propagates to the route and leaves the manager unchanged. -/
inductive MMOp
  | load (model_id : String)
  | unload (model_id : String)
deriving DecidableEq

def stepMM (s : ModelManagerState) : MMOp → ModelManagerState
  | .load mid =>
    match s.load_model mid with
    | .ok s1 => s1
    | .error _ => s
  | .unload mid => (s.unload_model mid).1

def runMM (s : ModelManagerState) : List MMOp → ModelManagerState
  | [] => s
  | op :: ops => runMM (stepMM s op) ops

/-- Well-formedness of a manager state: dict keys are unique and nonempty,
a model has status `"loaded"` exactly when it is the loaded one, and
`loaded_model_id` refers to an existing model. -/
def MMInv (s : ModelManagerState) : Prop :=
  (s.models.map Prod.fst).Nodup ∧
  (∀ p ∈ s.models, p.1 ≠ "" ∧ (p.2 = "loaded" ↔ s.loaded_model_id = some p.1)) ∧
  s.loaded_model_id.all (fun mid => hasModel s.models mid) = true

instance : DecidablePred MMInv := fun s => by
  unfold MMInv
  infer_instance

/-- Number of models whose stored status is `"loaded"`. -/
def loadedCount (s : ModelManagerState) : Nat :=
  (s.models.filter (fun p => p.2 = "loaded")).length

/-! ## HF model service (src/backend/services/hf_model_service.py)

The singleton holding the in-memory model, tokenizer, identity fields and
generation parameters.  The external Hugging Face calls
(`AutoModelForCausalLM.from_pretrained`, `AutoTokenizer.from_pretrained`,
`PeftModel.from_pretrained`, `merge_and_unload`, `model.generate`) are
abstracted as oracles that either return an opaque handle or raise.
-/

/-- Opaque handle for a loaded causal-LM model object. -/
structure ModelObj where
  tag : Nat
deriving DecidableEq

/-- Opaque handle for a loaded tokenizer, with the two token-id attributes
the service reads and writes. -/
structure TokenizerObj where
  tag : Nat
  pad_token_id : Option Int
  eos_token_id : Option Int
deriving DecidableEq

/-- The generation-parameter dict built in `HFModelService.__init__`; its
key set is fixed there, so it is embedded as a record.  `pad_token_id` is
the only key whose value may be Pythons `None`. -/
structure HFParams where
  max_new_tokens : Int
  repetition_penalty : ℚ
  do_sample : Bool
  num_beams : Int
  temperature : ℚ
  top_p : ℚ
  pad_token_id : Option Int
  num_return_sequences : Int
deriving DecidableEq

/-- The default parameter dict from `HFModelService.__init__`. -/
def defaultHFParams : HFParams :=
  { max_new_tokens := 300, repetition_penalty := 1, do_sample := false,
    num_beams := 6, temperature := 3/10, top_p := 95/100,
    pad_token_id := none, num_return_sequences := 1 }

/-- A partial update dict as accepted by the parameter endpoints: `none`
means the key is absent from the update.  Keys outside the union of the
two parameter schemas are ignored by both Python update methods and are
not representable.  For the two `Optional[int]` token ids an update may
supply Pythons `None`, hence the doubled `Option`. -/
structure ParamUpdates where
  temperature : Option ℚ := none
  top_k : Option Int := none
  top_p : Option ℚ := none
  max_length : Option Int := none
  repetition_penalty : Option ℚ := none
  do_sample : Option Bool := none
  num_beams : Option Int := none
  length_penalty : Option ℚ := none
  early_stopping : Option Bool := none
  pad_token_id : Option (Option Int) := none
  eos_token_id : Option (Option Int) := none
  max_new_tokens : Option Int := none
  num_return_sequences : Option Int := none
deriving DecidableEq

/-- `HFModelService.update_parameters` body: each supplied key that exists
in `self.parameters` is assigned verbatim — the method performs no range
validation.  (`top_k`, `max_length`, `length_penalty`, `early_stopping`
and `eos_token_id` are not keys of this dict and are dropped.) -/
def HFParams.applyUpdates (p : HFParams) (u : ParamUpdates) : HFParams :=
  { max_new_tokens := u.max_new_tokens.getD p.max_new_tokens
    repetition_penalty := u.repetition_penalty.getD p.repetition_penalty
    do_sample := u.do_sample.getD p.do_sample
    num_beams := u.num_beams.getD p.num_beams
    temperature := u.temperature.getD p.temperature
    top_p := u.top_p.getD p.top_p
    pad_token_id := u.pad_token_id.getD p.pad_token_id
    num_return_sequences := u.num_return_sequences.getD p.num_return_sequences }

/-- Mutable fields of the `HFModelService` singleton that the lifecycle
logic touches.  The `last_loaded` / `last_unloaded` /
`last_parameters_update` timestamp strings carry no lifecycle information
and are not modelled. -/
structure HFState where
  model : Option ModelObj
  tokenizer : Option TokenizerObj
  model_id : Option String
  base_model_id : Option String
  finetuned_model_id : Option String
  parameters : HFParams
deriving DecidableEq

/-- The freshly constructed service: nothing loaded, default parameters. -/
def HFState.init : HFState :=
  { model := none, tokenizer := none, model_id := none,
    base_model_id := none, finetuned_model_id := none,
    parameters := defaultHFParams }

/-- `HFModelService.unload_model`: clears the model, tokenizer and the
three identity fields. -/
def HFState.unload_model (s : HFState) : HFState :=
  { s with
    model := none
    tokenizer := none
    model_id := none
    base_model_id := none
    finetuned_model_id := none }

/-- `HFModelService.is_model_loaded`. -/
def HFState.is_model_loaded (s : HFState) : Bool :=
  s.model.isSome && s.tokenizer.isSome

/-- `HFModelService.get_parameters` (returns a copy of the dict). -/
def HFState.get_parameters (s : HFState) : HFParams :=
  s.parameters

/-- `HFModelService.update_parameters(updates)` on the singleton. -/
def HFState.update_parameters (s : HFState) (u : ParamUpdates) : HFState :=
  { s with parameters := s.parameters.applyUpdates u }

/-- The external Hugging Face collaborators used by `load_model`: each
acquisition either returns a handle or raises. -/
structure Hub where
  from_pretrained_model : String → Except String ModelObj
  from_pretrained_tokenizer : String → Except String TokenizerObj
  peft_from_pretrained : ModelObj → String → Except String ModelObj
  merge_and_unload : ModelObj → ModelObj

/-- Python `ft if ft else base` and `ft or base` on an optional string
(`None` and the empty string are falsy). -/
def orElseId (ft : Option String) (base : String) : String :=
  match ft with
  | none => base
  | some f => if f = "" then base else f

/-- `HFModelService.load_model(base_model_id, finetuned_model_id)` run
against `hub`.  Returns the state of the singleton after the call together
with `some e` when an external acquisition raised `e`: the exception
propagates to the caller and every attribute assignment executed before
the raise is kept, exactly as in the Python method, which installs no
handler.  On success the second component is `none`. -/
def HFState.load_model (s : HFState) (hub : Hub) (base_model_id : String)
    (finetuned_model_id : Option String) : HFState × Option String :=
  let s1 := { s.unload_model with
    base_model_id := some base_model_id
    finetuned_model_id := finetuned_model_id }
  match hub.from_pretrained_model base_model_id with
  | .error e => (s1, some e)
  | .ok m =>
    let s2 := { s1 with model := some m }
    let tokenizer_id := orElseId finetuned_model_id base_model_id
    match hub.from_pretrained_tokenizer tokenizer_id with
    | .error e => (s2, some e)
    | .ok tok =>
      let s3 := { s2 with tokenizer := some tok }
      let finalize : HFState → HFState := fun st =>
        let pad := if tok.pad_token_id = none then tok.eos_token_id else tok.pad_token_id
        { st with
          tokenizer := some { tok with pad_token_id := pad }
          model_id := some (orElseId finetuned_model_id base_model_id)
          parameters := { st.parameters with pad_token_id := pad } }
      if optStrTruthy finetuned_model_id = true then
        match hub.peft_from_pretrained m (finetuned_model_id.getD "") with
        | .error e => (s3, some e)
        | .ok adapter =>
          (finalize { s3 with model := some (hub.merge_and_unload adapter) }, none)
      else
        (finalize s3, none)

/-- Failure kinds of `generate_response` as seen by the caller: the
`RuntimeError("No model loaded. ...")` guard, or an exception propagated
from the external generation call. -/
inductive GenError
  | not_loaded
  | inference_failure (msg : String)
deriving DecidableEq

/-- `HFModelService.generate_response(message, parameters)` with the
external tokenize/generate/decode calls abstracted into `infer`.  The
guard `if not self.is_model_loaded()` is the non-(both-`some`) case; when
both handles exist the stored dict is copied, merged with the per-call
overrides (override wins key-by-key), `None`-valued entries are stripped
(only `pad_token_id` can be `None` here; the stripped dict is what `infer`
receives) and the external call runs. -/
def HFState.generate_response
    (s : HFState)
    (infer : ModelObj → TokenizerObj → String → HFParams → Except String String)
    (message : String) (overrides : Option ParamUpdates) : Except GenError String :=
  match s.model, s.tokenizer with
  | some m, some tok =>
    let params :=
      match overrides with
      | some u => s.parameters.applyUpdates u
      | none => s.parameters
    match infer m tok message params with
    | .ok text => .ok text
    | .error e => .error (.inference_failure e)
  | _, _ => .error .not_loaded

/-! ## Parameter manager (src/backend/services/parameter_manager.py) -/

/-- The pydantic `ModelParameters` schema with its field defaults
(src/backend/models/schemas.py); every field is `Optional`. -/
structure ModelParameters where
  temperature : Option ℚ := some 1
  top_k : Option Int := some 50
  top_p : Option ℚ := some (9/10)
  max_length : Option Int := some 100
  repetition_penalty : Option ℚ := some 1
  do_sample : Option Bool := some true
  num_beams : Option Int := some 1
  length_penalty : Option ℚ := some 1
  early_stopping : Option Bool := some false
  pad_token_id : Option Int := none
  eos_token_id : Option Int := none
deriving DecidableEq

/-- `params.update(updates)` on a `ModelParameters` dict. -/
def ModelParameters.applyUpdates (p : ModelParameters) (u : ParamUpdates) :
    ModelParameters :=
  { temperature := match u.temperature with | some v => some v | none => p.temperature
    top_k := match u.top_k with | some v => some v | none => p.top_k
    top_p := match u.top_p with | some v => some v | none => p.top_p
    max_length := match u.max_length with | some v => some v | none => p.max_length
    repetition_penalty :=
      match u.repetition_penalty with | some v => some v | none => p.repetition_penalty
    do_sample := match u.do_sample with | some v => some v | none => p.do_sample
    num_beams := match u.num_beams with | some v => some v | none => p.num_beams
    length_penalty :=
      match u.length_penalty with | some v => some v | none => p.length_penalty
    early_stopping :=
      match u.early_stopping with | some v => some v | none => p.early_stopping
    pad_token_id := u.pad_token_id.getD p.pad_token_id
    eos_token_id := u.eos_token_id.getD p.eos_token_id }

/-- State of `ParameterManager`: the per-model JSON files under
`PARAMS_DIR`, keyed by model id (`none` = no file yet). -/
structure ParameterManagerState where
  stored : String → Option ModelParameters

/-- `ParameterManager.get_parameters(model_id)`: the stored parameters when
a file exists, else schema defaults. -/
def ParameterManagerState.get_parameters (pm : ParameterManagerState)
    (model_id : String) : ModelParameters :=
  (pm.stored model_id).getD {}

/-- `ParameterManager.update_parameters(model_id, updates)`: merge into the
current dict, clamp `temperature` into [0, 2] and `top_k` into [1, 100]
with `min(max(v, lo), hi)`, persist the result and return it. -/
def ParameterManagerState.update_parameters (pm : ParameterManagerState)
    (model_id : String) (u : ParamUpdates) :
    ParameterManagerState × ModelParameters :=
  let params0 := (pm.get_parameters model_id).applyUpdates u
  let params := { params0 with
    temperature := params0.temperature.map (fun t => min (max t 0) 2)
    top_k := params0.top_k.map (fun k => min (max k 1) 100) }
  ({ stored := Function.update pm.stored model_id (some params) }, params)

/-! ## API routes (src/backend/api/routes.py) -/

/-- The three service singletons the routes considered here read and
write. -/
structure AppState where
  mm : ModelManagerState
  pm : ParameterManagerState
  hf : HFState

/-- Result of a route call: a payload, or an
`HTTPException(status_code, detail)`. -/
inductive RouteResult (α : Type)
  | ok (payload : α)
  | httpError (status_code : Nat) (detail : String)
deriving DecidableEq

/-- `PUT /models/{model_id}/parameters`: always persist through the
parameter manager (which clamps); exactly when `model_id` is the loaded
model, additionally write the raw updates into the in-memory service. -/
def route_update_model_parameters (st : AppState) (model_id : String)
    (u : ParamUpdates) : AppState :=
  let pm1 := (st.pm.update_parameters model_id u).1
  let hf1 := if st.mm.loaded_model_id = some model_id
             then st.hf.update_parameters u else st.hf
  { st with pm := pm1, hf := hf1 }

/-- The payload served by `GET /models/{model_id}/parameters`: the
in-memory service dict when `model_id` is the loaded model, the persisted
dict otherwise.  The two dicts have different schemas, so the payload is a
sum. -/
inductive ServedParams
  | fromService (p : HFParams)
  | fromStore (p : ModelParameters)
deriving DecidableEq

def route_get_model_parameters (st : AppState) (model_id : String) : ServedParams :=
  if st.mm.loaded_model_id = some model_id then .fromService st.hf.get_parameters
  else .fromStore (st.pm.get_parameters model_id)

/-- `POST /models/{model_id}/unload`: when the manager returns `False` the
route raises `Exception("Model not loaded")`, caught and rewrapped as
`HTTPException(400, ...)`; when it returns `True` the in-memory service is
unloaded too and a success payload is returned. -/
def route_unload_model (st : AppState) (model_id : String) :
    AppState × RouteResult String :=
  let r := st.mm.unload_model model_id
  if r.2 = true then
    ({ st with mm := r.1, hf := st.hf.unload_model },
      RouteResult.ok ("Model " ++ model_id ++ " unloaded"))
  else
    ({ st with mm := r.1 }, RouteResult.httpError 400 "Model not loaded")

/-! ## Request pipeline (src/backend/main_improved.py)

`main_improved.py` registers `CORSMiddleware` via `add_middleware` and then
four `@app.middleware("http")` functions.  Starlette `add_middleware`
inserts each newly registered middleware at index 0 of `user_middleware`,
and `build_middleware_stack` makes the first list entry the outermost
layer; hence the last-registered middleware is the outermost.
-/

/-- The five HTTP middlewares of `main_improved.py`. -/
inductive Middleware
  | cors
  | request_id
  | monitor
  | rate_limit
  | timeout_wrapper
deriving DecidableEq

/-- Source order of registration in `main_improved.py`: `CORSMiddleware`,
then the decorators `add_request_id`, `monitor_requests`, `rate_limit`,
`timeout_handler`. -/
def registrationOrder : List Middleware :=
  [.cors, .request_id, .monitor, .rate_limit, .timeout_wrapper]

/-- The built stack, outermost layer first: each registration is inserted
at the front of the list. -/
def middlewareStack : List Middleware :=
  registrationOrder.foldl (fun stack m => m :: stack) []

/-- Observable events of one inbound chat request walking the stack. -/
inductive Event
  | timer_started
  | admission_checked
  | rate_limit_rejected
  | inference_entered
  | outcome_recorded
deriving DecidableEq

/-- Event trace of one request through the given layers (outermost first).
`admitted` abstracts the verdict of `rate_limiter.is_allowed` for this
request.  `timeout_handler` starts racing the deadline before awaiting the
inner layers; `rate_limit` raises `HTTPException(429)` before calling
inward when the verdict is negative; `monitor_requests` records the
outcome in a `finally` block, i.e. after its inner layers finish, and a
rejection raised by an outer layer never reaches it. -/
def runStack : List Middleware → Bool → List Event
  | [], _ => [.inference_entered]
  | .timeout_wrapper :: rest, admitted => .timer_started :: runStack rest admitted
  | .rate_limit :: rest, admitted =>
    if admitted then .admission_checked :: runStack rest admitted
    else [.admission_checked, .rate_limit_rejected]
  | .monitor :: rest, admitted => runStack rest admitted ++ [.outcome_recorded]
  | .request_id :: rest, admitted => runStack rest admitted
  | .cors :: rest, admitted => runStack rest admitted

/-! ## Concrete failure oracles used in the counterexample evaluations -/

/-- An oracle on which the base model and tokenizer downloads succeed but
the adapter (PEFT) acquisition raises. -/
def hubAdapterFails : Hub :=
  { from_pretrained_model := fun _ => .ok { tag := 1 }
    from_pretrained_tokenizer :=
      fun _ => .ok { tag := 2, pad_token_id := some 0, eos_token_id := some 0 }
    peft_from_pretrained := fun _ _ => .error "adapter acquisition failed"
    merge_and_unload := fun m => { tag := m.tag + 100 } }

/-- An oracle on which already the base model download raises. -/
def hubBaseFails : Hub :=
  { from_pretrained_model := fun _ => .error "base acquisition failed"
    from_pretrained_tokenizer :=
      fun _ => .ok { tag := 2, pad_token_id := some 0, eos_token_id := some 0 }
    peft_from_pretrained := fun _ _ => .error "unused"
    merge_and_unload := fun m => m }

/-- Ten concrete request outcomes, eight successes and two failures, each
of duration one second. -/
def tenOutcomes : List (ℚ × Bool) :=
  [(1, true), (1, true), (1, true), (1, true), (1, true),
   (1, true), (1, true), (1, true), (1, false), (1, false)]

/-- An app state in which model id `"m"` is the loaded model, the
in-memory service holds it with default parameters, and no parameter file
has been written yet. -/
def loadedAppState : AppState :=
  { mm := { models := [("m", "loaded")], loaded_model_id := some "m" }
    pm := { stored := fun _ => none }
    hf := { HFState.init with
      model := some { tag := 1 }
      tokenizer := some { tag := 2, pad_token_id := some 0, eos_token_id := some 0 }
      model_id := some "m"
      base_model_id := some "m" } }

/-- The update request body `{"temperature": 5.0}`. -/
def temperatureFiveUpdate : ParamUpdates := { temperature := some 5 }

/-- The temperature visible in a served parameter payload. -/
def ServedParams.temperatureOf : ServedParams → Option ℚ
  | .fromService p => some p.temperature
  | .fromStore p => p.temperature

/-!
# Theorems
-/

theorem runMonitor_request_count (os : List (ℚ × Bool)) :
    ∀ m : APIMonitor, (runMonitor m os).request_count = m.request_count + os.length := by
  induction os with
  | nil => intro m; simp [runMonitor]
  | cons o os ih =>
    intro m
    simp [runMonitor, ih, APIMonitor.record_request]
    omega

theorem runMonitor_error_count (os : List (ℚ × Bool)) :
    ∀ m : APIMonitor,
      (runMonitor m os).error_count
        = m.error_count + (os.filter (fun o => !o.2)).length := by
  induction os with
  | nil => intro m; simp [runMonitor]
  | cons o os ih =>
    intro m
    cases h : o.2 with
    | true => simp [runMonitor, ih, APIMonitor.record_request, h]
    | false => simp [runMonitor, ih, APIMonitor.record_request, h]; omega

theorem cleanupOld_of_all_recent {now window : ℚ} {l : List ℚ}
    (h : ∀ t ∈ l, now - t ≤ window) : cleanupOld now window l = l := by
  unfold cleanupOld
  cases l with
  | nil => rfl
  | cons a l =>
    rw [List.dropWhile_cons_of_neg]
    simp only [decide_eq_true_eq, not_lt]
    exact h a (by simp)

theorem cleanupOld_of_all_old {now window : ℚ} {l : List ℚ}
    (h : ∀ t ∈ l, window < now - t) : cleanupOld now window l = [] := by
  unfold cleanupOld
  induction l with
  | nil => rfl
  | cons a l ih =>
    rw [List.dropWhile_cons_of_pos]
    · exact ih fun t ht => h t (by simp [ht])
    · simpa using h a (by simp)

theorem cleanupOld_length_le (now window : ℚ) (l : List ℚ) :
    (cleanupOld now window l).length ≤ l.length := by
  unfold cleanupOld
  induction l with
  | nil => simp
  | cons a l ih =>
    by_cases h : (window < now - a)
    · rw [List.dropWhile_cons_of_pos (by simpa using h)]
      exact Nat.le_succ_of_le ih
    · rw [List.dropWhile_cons_of_neg (by simpa using h)]

theorem cleanupOld_nil (now window : ℚ) : cleanupOld now window [] = [] := rfl

theorem defaultRateLimiter_eq (c : String) : defaultRateLimiter = clientState c [] := by
  unfold defaultRateLimiter RateLimiter.new clientState
  simp only [RateLimiter.mk.injEq, true_and]
  constructor <;> funext k <;> simp

theorem is_allowed_true_eq (s : RateLimiter) (now : ℚ) (c : String)
    (h1 : (cleanupOld now 60 (s.minute_requests c)).length < s.requests_per_minute)
    (h2 : (cleanupOld now 3600 (s.hour_requests c)).length < s.requests_per_hour) :
    s.is_allowed now c =
      (true, { s with
        minute_requests := Function.update (fun k => cleanupOld now 60 (s.minute_requests k)) c
            (cleanupOld now 60 (s.minute_requests c) ++ [now])
        hour_requests := Function.update (fun k => cleanupOld now 3600 (s.hour_requests k)) c
            (cleanupOld now 3600 (s.hour_requests c) ++ [now]) }) := by
  unfold RateLimiter.is_allowed
  rw [if_neg (show ¬ s.requests_per_minute ≤
        (cleanupOld now 60 (s.minute_requests c)).length by omega),
      if_neg (show ¬ s.requests_per_hour ≤
        (cleanupOld now 3600 (s.hour_requests c)).length by omega)]

theorem is_allowed_fst_true (s : RateLimiter) (now : ℚ) (c : String)
    (h1 : (cleanupOld now 60 (s.minute_requests c)).length < s.requests_per_minute)
    (h2 : (cleanupOld now 3600 (s.hour_requests c)).length < s.requests_per_hour) :
    (s.is_allowed now c).1 = true := by
  rw [is_allowed_true_eq s now c h1 h2]

theorem is_allowed_false_of_minute_full (s : RateLimiter) (now : ℚ) (c : String)
    (h1 : s.requests_per_minute ≤ (cleanupOld now 60 (s.minute_requests c)).length) :
    s.is_allowed now c =
      (false, { s with
        minute_requests := fun k => cleanupOld now 60 (s.minute_requests k)
        hour_requests := fun k => cleanupOld now 3600 (s.hour_requests k) }) := by
  unfold RateLimiter.is_allowed
  rw [if_pos h1]

theorem is_allowed_clientState_step (c : String) (l : List ℚ) (now : ℚ)
    (hkeep : ∀ t ∈ l, now - t ≤ 60) (hlen : l.length < 60) :
    (clientState c l).is_allowed now c = (true, clientState c (l ++ [now])) := by
  have hm : cleanupOld now 60 l = l := cleanupOld_of_all_recent hkeep
  have hh : cleanupOld now 3600 l = l :=
    cleanupOld_of_all_recent fun t ht => (hkeep t ht).trans (by norm_num)
  have hmc : (clientState c l).minute_requests c = l := by simp [clientState]
  have hhc : (clientState c l).hour_requests c = l := by simp [clientState]
  rw [is_allowed_true_eq]
  · refine congrArg (Prod.mk true) ?_
    unfold clientState
    simp only [RateLimiter.mk.injEq, true_and]
    constructor <;> funext k <;> by_cases hk : k = c <;>
      simp [Function.update, hk, hm, hh, cleanupOld_nil]
  · rw [hmc, hm]; simpa [clientState] using hlen
  · rw [hhc, hh]; simp only [clientState]; omega

theorem is_allowed_full_denied (c : String) (l : List ℚ) (now : ℚ)
    (hkeep : ∀ t ∈ l, now - t ≤ 60) (hlen : 60 ≤ l.length) :
    (clientState c l).is_allowed now c = (false, clientState c l) := by
  have hm : cleanupOld now 60 l = l := cleanupOld_of_all_recent hkeep
  have hh : cleanupOld now 3600 l = l :=
    cleanupOld_of_all_recent fun t ht => (hkeep t ht).trans (by norm_num)
  rw [is_allowed_false_of_minute_full]
  · refine congrArg (Prod.mk false) ?_
    unfold clientState
    simp only [RateLimiter.mk.injEq, true_and]
    constructor <;> funext k <;> by_cases hk : k = c <;>
      simp [hk, hm, hh, cleanupOld_nil]
  · simpa [clientState, hm] using hlen

theorem is_allowed_after_window (c : String) (l : List ℚ) (tLater : ℚ)
    (hall : ∀ t ∈ l, 60 < tLater - t) (hlen : l.length ≤ 60) :
    ((clientState c l).is_allowed tLater c).1 = true := by
  have e1 : (clientState c l).minute_requests c = l := by simp [clientState]
  have e2 : (clientState c l).hour_requests c = l := by simp [clientState]
  apply is_allowed_fst_true
  · rw [e1, cleanupOld_of_all_old hall]
    simp [clientState]
  · rw [e2]
    have := cleanupOld_length_le tLater 3600 l
    simp only [clientState]
    omega

theorem is_allowed_fresh_client (s : RateLimiter) (now : ℚ) (k : String)
    (hm : s.minute_requests k = []) (hh : s.hour_requests k = [])
    (h1 : 0 < s.requests_per_minute) (h2 : 0 < s.requests_per_hour) :
    (s.is_allowed now k).1 = true := by
  apply is_allowed_fst_true
  · rw [hm]; simpa [cleanupOld_nil] using h1
  · rw [hh]; simpa [cleanupOld_nil] using h2

theorem runClient_clientState (c : String) (t0 : ℚ) (ts : List ℚ) :
    ∀ pre : List ℚ,
      (∀ t ∈ pre, t0 ≤ t ∧ t ≤ t0 + 60) →
      (∀ t ∈ ts, t0 ≤ t ∧ t ≤ t0 + 60) →
      pre.length + ts.length ≤ 60 →
      runClient (clientState c pre) c ts
        = (List.replicate ts.length true, clientState c (pre ++ ts)) := by
  induction ts with
  | nil => intro pre _ _ _; simp [runClient]
  | cons t ts ih =>
    intro pre hpre hts hlen
    have hkeep : ∀ x ∈ pre, t - x ≤ 60 := by
      intro x hx
      have h1 := (hpre x hx).1
      have h2 := (hts t (by simp)).2
      linarith
    have hl : pre.length < 60 := by
      simp only [List.length_cons] at hlen; omega
    simp only [runClient, is_allowed_clientState_step c pre t hkeep hl]
    rw [ih (pre ++ [t])
      (by
        intro x hx
        rcases List.mem_append.1 hx with h | h
        · exact hpre x h
        · simp only [List.mem_singleton] at h
          subst h
          exact hts x (by simp))
      (fun x hx => hts x (by simp [hx]))
      (by simp only [List.length_append, List.length_cons, List.length_nil]
            at hlen ⊢; omega)]
    simp [List.replicate_succ]

theorem is_allowed_false_of_hour_full (s : RateLimiter) (now : ℚ) (c : String)
    (h1 : (cleanupOld now 60 (s.minute_requests c)).length < s.requests_per_minute)
    (h2 : s.requests_per_hour ≤ (cleanupOld now 3600 (s.hour_requests c)).length) :
    s.is_allowed now c =
      (false, { s with
        minute_requests := fun k => cleanupOld now 60 (s.minute_requests k)
        hour_requests := fun k => cleanupOld now 3600 (s.hour_requests k) }) := by
  unfold RateLimiter.is_allowed
  rw [if_neg (show ¬ s.requests_per_minute ≤
        (cleanupOld now 60 (s.minute_requests c)).length by omega),
      if_pos h2]

/-- C9: after exactly 10 recorded outcomes of which 2 were failures,
`get_stats` reports `error_count = 2` and `error_rate_percent = 20`; in
general the error-rate percentage is `error_count / request_count * 100`
and the average response time is `total_response_time / request_count`,
both derived on read from the stored counters. -/
theorem monitor_stats_after_ten_outcomes (os : List (ℚ × Bool)) (t0 now : ℚ)
    (h10 : os.length = 10)
    (h2 : (os.filter (fun o => !o.2)).length = 2) :
    ((runMonitor (APIMonitor.init t0) os).get_stats now).error_count = 2 ∧
    ((runMonitor (APIMonitor.init t0) os).get_stats now).error_rate_percent = 20 ∧
    (∀ (m : APIMonitor) (t : ℚ), 0 < m.request_count →
      (m.get_stats t).error_rate_percent
          = (m.error_count : ℚ) / (m.request_count : ℚ) * 100 ∧
      (m.get_stats t).avg_response_time_seconds
          = m.total_response_time / (m.request_count : ℚ)) := by
  have hc : (runMonitor (APIMonitor.init t0) os).request_count = 10 := by
    rw [runMonitor_request_count]
    simp [APIMonitor.init, h10]
  have he : (runMonitor (APIMonitor.init t0) os).error_count = 2 := by
    rw [runMonitor_error_count]
    simp [APIMonitor.init, h2]
  refine ⟨by simp [APIMonitor.get_stats, he], ?_, ?_⟩
  · simp [APIMonitor.get_stats, hc, he]
    norm_num
  · intro m t hm
    exact ⟨by simp [APIMonitor.get_stats, hm], by simp [APIMonitor.get_stats, hm]⟩

/-- Witness for C9 at the concrete list of ten outcomes. -/
theorem monitor_stats_after_ten_outcomes_witness :
    tenOutcomes.length = 10 ∧
    (tenOutcomes.filter (fun o => !o.2)).length = 2 ∧
    ((runMonitor (APIMonitor.init 0) tenOutcomes).get_stats 50).error_count = 2 ∧
    ((runMonitor (APIMonitor.init 0) tenOutcomes).get_stats 50).error_rate_percent = 20 :=
  ⟨rfl, rfl,
    (monitor_stats_after_ten_outcomes tenOutcomes 0 50 rfl rfl).1,
    (monitor_stats_after_ten_outcomes tenOutcomes 0 50 rfl rfl).2.1⟩

/-- C10: with zero recorded outcomes `get_stats` does not divide by zero:
the error-rate percentage and the average response time come out as 0, and
when the uptime is 0 the requests-per-second figure is 0 as well. -/
theorem get_stats_zero_requests (m : APIMonitor) (now : ℚ)
    (h : m.request_count = 0) :
    (m.get_stats now).error_rate_percent = 0 ∧
    (m.get_stats now).avg_response_time_seconds = 0 ∧
    (now - m.start_time = 0 → (m.get_stats now).requests_per_second = 0) := by
  refine ⟨by simp [APIMonitor.get_stats, h], by simp [APIMonitor.get_stats, h], ?_⟩
  intro hu
  simp [APIMonitor.get_stats, hu]

/-- Witness for C10 on a freshly constructed monitor read at its own start
time. -/
theorem get_stats_zero_requests_witness :
    (APIMonitor.init 7).request_count = 0 ∧
    (((APIMonitor.init 7).get_stats 7).error_rate_percent = 0 ∧
     ((APIMonitor.init 7).get_stats 7).avg_response_time_seconds = 0 ∧
     ((7 : ℚ) - (APIMonitor.init 7).start_time = 0 →
       ((APIMonitor.init 7).get_stats 7).requests_per_second = 0)) :=
  ⟨rfl, get_stats_zero_requests (APIMonitor.init 7) 7 rfl⟩

/-- C8: an admission check appends the current timestamp to both of the
clients sequences exactly when it returns allowed; a denied check leaves
both sequences purged of expired entries but otherwise unchanged — the
attempt itself is not recorded. -/
theorem is_allowed_records_only_on_success (s : RateLimiter) (now : ℚ) (c : String) :
    (s.is_allowed now c).2.minute_requests c
        = cleanupOld now 60 (s.minute_requests c)
          ++ (if (s.is_allowed now c).1 = true then [now] else []) ∧
    (s.is_allowed now c).2.hour_requests c
        = cleanupOld now 3600 (s.hour_requests c)
          ++ (if (s.is_allowed now c).1 = true then [now] else []) := by
  by_cases h1 : s.requests_per_minute ≤ (cleanupOld now 60 (s.minute_requests c)).length
  · rw [is_allowed_false_of_minute_full s now c h1]
    simp
  · by_cases h2 : s.requests_per_hour ≤ (cleanupOld now 3600 (s.hour_requests c)).length
    · rw [is_allowed_false_of_hour_full s now c (by omega) h2]
      simp
    · rw [is_allowed_true_eq s now c (by omega) (by omega)]
      simp

/-- C4: a generate call immediately after `unload_model` fails with the
not-loaded error kind — for every inference oracle, prior state, message
and override set, so no other error kind can occur and the external
inference call is never consulted. -/
theorem generate_after_unload_fails_not_loaded (s : HFState)
    (infer : ModelObj → TokenizerObj → String → HFParams → Except String String)
    (message : String) (overrides : Option ParamUpdates) :
    (s.unload_model).generate_response infer message overrides
      = Except.error GenError.not_loaded := rfl

/-- C1 (checked against the code): evaluating `load_model` at inputs where
an external acquisition raises.  When the adapter acquisition raises, the
error is surfaced but the service still reports loaded — the unmerged base
model and the tokenizer remain installed — and the identity fields are
non-null; when already the base acquisition raises, the service reports
not loaded yet its identity fields are non-null.  Both runs contradict
"ends in UNLOADED with all identity fields null". -/
theorem load_model_failure_leaves_half_initialized_state :
    ((HFState.init.load_model hubAdapterFails "base/m" (some "ft/m")).2
        = some "adapter acquisition failed" ∧
     (HFState.init.load_model hubAdapterFails "base/m" (some "ft/m")).1.is_model_loaded
        = true ∧
     (HFState.init.load_model hubAdapterFails "base/m" (some "ft/m")).1.base_model_id
        = some "base/m" ∧
     (HFState.init.load_model hubAdapterFails "base/m" (some "ft/m")).1.finetuned_model_id
        = some "ft/m" ∧
     (HFState.init.load_model hubAdapterFails "base/m" (some "ft/m")).1.model_id = none) ∧
    ((HFState.init.load_model hubBaseFails "base/m" (some "ft/m")).2
        = some "base acquisition failed" ∧
     (HFState.init.load_model hubBaseFails "base/m" (some "ft/m")).1.is_model_loaded
        = false ∧
     (HFState.init.load_model hubBaseFails "base/m" (some "ft/m")).1.base_model_id
        = some "base/m") :=
  ⟨⟨rfl, rfl, rfl, rfl, rfl⟩, rfl, rfl, rfl⟩

/-- C5 (checked against the code): updating `temperature` to 5.0 while
model `"m"` is loaded persists the clamped value 2.0 in the parameter
store, but the in-memory service keeps the raw 5.0, and the subsequent
get for the loaded identity serves the raw 5.0, not the clamp. -/
theorem update_parameters_clamp_not_served_for_loaded_model :
    ((route_update_model_parameters loadedAppState "m"
        temperatureFiveUpdate).pm.get_parameters "m").temperature = some 2 ∧
    (route_get_model_parameters
        (route_update_model_parameters loadedAppState "m" temperatureFiveUpdate)
        "m").temperatureOf = some 5 ∧
    (route_get_model_parameters
        (route_update_model_parameters loadedAppState "m" temperatureFiveUpdate)
        "m").temperatureOf ≠ some 2 := by
  refine ⟨by decide, by decide, by decide⟩

/-- C6 counterexample: on a request denied by the rate limiter the
pipeline has already started the timeout clock before the admission
decision — the admission check does not precede the timer start in the
trace, refuting the claimed Admission-Gate-before-Timeout order. -/
theorem pipeline_order_counterexample :
    runStack middlewareStack false
      = [Event.timer_started, Event.admission_checked, Event.rate_limit_rejected] ∧
    ¬ (runStack middlewareStack false).indexOf Event.admission_checked
        < (runStack middlewareStack false).indexOf Event.timer_started := by
  decide

/-- C6 amended: the stack built by `main_improved.py` is, outermost first,
timeout wrapper, admission gate, monitor, then the inference entry point:
an admitted request traces timer start, admission check, inference, then
outcome recording; a denied request is rejected inside the running timeout
wrapper; and the monitor records no outcome for a denied request. -/
theorem pipeline_actual_order :
    middlewareStack
      = [Middleware.timeout_wrapper, Middleware.rate_limit, Middleware.monitor,
         Middleware.request_id, Middleware.cors] ∧
    runStack middlewareStack true
      = [Event.timer_started, Event.admission_checked, Event.inference_entered,
         Event.outcome_recorded] ∧
    runStack middlewareStack false
      = [Event.timer_started, Event.admission_checked, Event.rate_limit_rejected] ∧
    Event.outcome_recorded ∉ runStack middlewareStack false := by
  decide

/-- C7: unloading through the manager when nothing is loaded is a no-op:
it returns `False` — the nothing-to-unload indication — without raising,
and the state, still with no loaded model, is unchanged. -/
theorem unload_when_nothing_loaded_noop (s : ModelManagerState) (model_id : String)
    (h : s.loaded_model_id = none) :
    s.unload_model model_id = (s, false) := by
  unfold ModelManagerState.unload_model
  rw [if_neg (by simp [h])]

/-- Witness for C7 on a store with one available model and nothing
loaded. -/
theorem unload_when_nothing_loaded_noop_witness :
    (⟨[("A", "available")], none⟩ : ModelManagerState).loaded_model_id = none ∧
    (⟨[("A", "available")], none⟩ : ModelManagerState).unload_model "A"
      = ((⟨[("A", "available")], none⟩ : ModelManagerState), false) :=
  ⟨rfl, unload_when_nothing_loaded_noop ⟨[("A", "available")], none⟩ "A" rfl⟩

/-- C3: starting from empty windows at the default capacities, all 60
checks whose timestamps lie inside one 60-second window are allowed, a
61st check inside the same window is denied, a later check made once
every recorded entry is more than 60 seconds old is allowed again, and a
brand-new client — empty windows, positive capacities — is always
admitted. -/
theorem rate_limiter_window_behaviour (c : String) (ts : List ℚ) (t0 tExtra tLater : ℚ)
    (hlen : ts.length = 60)
    (hts : ∀ t ∈ ts, t0 ≤ t ∧ t ≤ t0 + 60)
    (hex : ∀ t ∈ ts, tExtra - t ≤ 60)
    (hlater : ∀ t ∈ ts, 60 < tLater - t) :
    (runClient defaultRateLimiter c ts).1 = List.replicate 60 true ∧
    ((runClient defaultRateLimiter c ts).2.is_allowed tExtra c).1 = false ∧
    ((((runClient defaultRateLimiter c ts).2.is_allowed tExtra c).2).is_allowed
        tLater c).1 = true ∧
    (∀ (s : RateLimiter) (now : ℚ) (k : String),
        s.minute_requests k = [] → s.hour_requests k = [] →
        0 < s.requests_per_minute → 0 < s.requests_per_hour →
        (s.is_allowed now k).1 = true) := by
  have hrun : runClient defaultRateLimiter c ts
      = (List.replicate ts.length true, clientState c ts) := by
    rw [defaultRateLimiter_eq c]
    simpa using runClient_clientState c t0 ts [] (by simp) hts (by simp [hlen])
  have hden : (clientState c ts).is_allowed tExtra c = (false, clientState c ts) :=
    is_allowed_full_denied c ts tExtra hex (by omega)
  refine ⟨?_, ?_, ?_, ?_⟩
  · rw [hrun]
    simp [hlen]
  · rw [hrun]
    simp [hden]
  · rw [hrun]
    simp only [hden]
    exact is_allowed_after_window c ts tLater hlater (by omega)
  · exact fun s now k hm hh h1 h2 => is_allowed_fresh_client s now k hm hh h1 h2

/-- Witness for C3: sixty requests at time 0, a 61st at time 30, and a
retry at time 100, all for the same client. -/
theorem rate_limiter_window_behaviour_witness :
    (runClient defaultRateLimiter "alice" (List.replicate 60 (0 : ℚ))).1
      = List.replicate 60 true ∧
    ((runClient defaultRateLimiter "alice"
        (List.replicate 60 (0 : ℚ))).2.is_allowed 30 "alice").1 = false ∧
    ((((runClient defaultRateLimiter "alice"
        (List.replicate 60 (0 : ℚ))).2.is_allowed 30 "alice").2).is_allowed
        100 "alice").1 = true ∧
    (∀ (s : RateLimiter) (now : ℚ) (k : String),
        s.minute_requests k = [] → s.hour_requests k = [] →
        0 < s.requests_per_minute → 0 < s.requests_per_hour →
        (s.is_allowed now k).1 = true) :=
  rate_limiter_window_behaviour "alice" (List.replicate 60 0) 0 30 100
    (by simp)
    (fun t ht => by rw [List.eq_of_mem_replicate ht]; norm_num)
    (fun t ht => by rw [List.eq_of_mem_replicate ht]; norm_num)
    (fun t ht => by rw [List.eq_of_mem_replicate ht]; norm_num)

theorem setStatus_cons (p : String × String) (ms : List (String × String))
    (mid st : String) :
    setStatus (p :: ms) mid st
      = (if p.1 = mid then (p.1, st) else p) :: setStatus ms mid st := rfl

theorem fst_setStatus (ms : List (String × String)) (mid st : String) :
    (setStatus ms mid st).map Prod.fst = ms.map Prod.fst := by
  induction ms with
  | nil => rfl
  | cons p ms ih =>
    rw [setStatus_cons]
    simp only [List.map_cons, ih]
    by_cases h : p.1 = mid <;> simp [h]

theorem hasModel_setStatus (ms : List (String × String)) (mid st q : String) :
    hasModel (setStatus ms mid st) q = hasModel ms q := by
  induction ms with
  | nil => rfl
  | cons p ms ih =>
    rw [setStatus_cons]
    unfold hasModel at *
    simp only [List.any_cons, ih]
    by_cases h : p.1 = mid <;> simp [h]

theorem statusOf_setStatus_self (ms : List (String × String)) (mid st : String)
    (hm : hasModel ms mid = true) :
    statusOf (setStatus ms mid st) mid = some st := by
  induction ms with
  | nil => simp [hasModel] at hm
  | cons p ms ih =>
    rw [setStatus_cons]
    by_cases h : p.1 = mid
    · unfold statusOf
      rw [List.find?_cons_of_pos _ (by simp [h])]
      simp [h]
    · unfold statusOf
      rw [List.find?_cons_of_neg _ (by simp [h])]
      apply ih
      unfold hasModel at hm
      simp only [List.any_cons, Bool.or_eq_true, decide_eq_true_eq] at hm
      rcases hm with hm | hm
      · exact absurd hm h
      · exact hm

theorem unload_model_of_loaded (s : ModelManagerState) (cur : String)
    (hc : s.loaded_model_id = some cur) :
    s.unload_model cur = ({ models := setStatus s.models cur "available",
                            loaded_model_id := none }, true) := by
  unfold ModelManagerState.unload_model
  rw [if_pos hc]

theorem MMInv_loaded_ne_empty (s : ModelManagerState) (h : MMInv s) (cur : String)
    (hc : s.loaded_model_id = some cur) : cur ≠ "" := by
  obtain ⟨-, hp, hl⟩ := h
  rw [hc] at hl
  simp only [Option.all] at hl
  unfold hasModel at hl
  rcases List.any_eq_true.1 hl with ⟨p, hpmem, hpq⟩
  simp only [decide_eq_true_eq] at hpq
  rw [← hpq]
  exact (hp p hpmem).1

theorem MMInv_unload (s : ModelManagerState) (mid : String) (h : MMInv s) :
    MMInv (s.unload_model mid).1 := by
  obtain ⟨hnd, hp, hl⟩ := h
  unfold ModelManagerState.unload_model
  by_cases hc : s.loaded_model_id = some mid
  · rw [if_pos hc]
    refine ⟨by simpa [fst_setStatus] using hnd, ?_, by simp [Option.all]⟩
    intro p hpmem
    rcases List.mem_map.1 hpmem with ⟨q, hq, hqe⟩
    by_cases hq1 : q.1 = mid
    · rw [if_pos hq1] at hqe
      subst hqe
      refine ⟨(hp q hq).1, ?_⟩
      simp
    · rw [if_neg hq1] at hqe
      subst hqe
      refine ⟨(hp q hq).1, ?_⟩
      simp only [iff_false, Option.some.injEq]
      constructor
      · intro hst
        have := ((hp q hq).2).1 hst
        rw [hc] at this
        exact absurd (Option.some.inj this).symm hq1
      · intro hfalse
        exact absurd hfalse (by simp)
  · rw [if_neg hc]
    exact ⟨hnd, hp, hl⟩

theorem MMInv_mark_loaded (s : ModelManagerState) (mid : String) (h : MMInv s)
    (hm : hasModel s.models mid = true)
    (hl : s.loaded_model_id = none ∨ s.loaded_model_id = some mid) :
    MMInv { models := setStatus s.models mid "loaded",
            loaded_model_id := some mid } := by
  obtain ⟨hnd, hp, -⟩ := h
  refine ⟨by simpa [fst_setStatus] using hnd, ?_,
    by simpa [Option.all, hasModel_setStatus] using hm⟩
  intro p hpmem
  rcases List.mem_map.1 hpmem with ⟨q, hq, hqe⟩
  by_cases hq1 : q.1 = mid
  · rw [if_pos hq1] at hqe
    subst hqe
    exact ⟨(hp q hq).1, by simp [hq1]⟩
  · rw [if_neg hq1] at hqe
    subst hqe
    refine ⟨(hp q hq).1, ?_⟩
    simp only [Option.some.injEq]
    constructor
    · intro hst
      have := ((hp q hq).2).1 hst
      rcases hl with hl | hl
      · rw [hl] at this
        exact absurd this (by simp)
      · rw [hl] at this
        exact absurd (Option.some.inj this).symm hq1
    · intro hfalse
      exact absurd hfalse.symm hq1

theorem load_model_eq_error (s : ModelManagerState) (mid : String)
    (hm : hasModel s.models mid = false) :
    s.load_model mid = Except.error ("Model " ++ mid ++ " not found") := by
  unfold ModelManagerState.load_model
  rw [if_pos hm]

theorem load_model_eq_ok (s : ModelManagerState) (mid : String)
    (hm : hasModel s.models mid = true) :
    s.load_model mid = Except.ok
      { models := setStatus (loadTarget s mid).models mid "loaded",
        loaded_model_id := some mid } := by
  unfold ModelManagerState.load_model
  rw [if_neg (by simp [hm])]

theorem loadTarget_of_none (t : ModelManagerState) (mid : String)
    (hcur : t.loaded_model_id = none) : loadTarget t mid = t := by
  unfold loadTarget
  rw [hcur]

theorem loadTarget_of_some (t : ModelManagerState) (mid cur : String)
    (hcur : t.loaded_model_id = some cur) :
    loadTarget t mid
      = if cur ≠ "" ∧ cur ≠ mid then (t.unload_model cur).1 else t := by
  unfold loadTarget
  rw [hcur]

theorem hasModel_load_target (t : ModelManagerState) (mid : String) :
    hasModel (loadTarget t mid).models mid = hasModel t.models mid := by
  cases hcur : t.loaded_model_id with
  | none => rw [loadTarget_of_none t mid hcur]
  | some cur =>
    rw [loadTarget_of_some t mid cur hcur]
    by_cases hcm : cur ≠ "" ∧ cur ≠ mid
    · rw [if_pos hcm, unload_model_of_loaded t cur hcur]
      exact hasModel_setStatus _ _ _ _
    · rw [if_neg hcm]

theorem MMInv_load_target (t : ModelManagerState) (mid : String) (h : MMInv t) :
    MMInv (loadTarget t mid) ∧
    ((loadTarget t mid).loaded_model_id = none ∨
     (loadTarget t mid).loaded_model_id = some mid) := by
  cases hcur : t.loaded_model_id with
  | none => rw [loadTarget_of_none t mid hcur]; exact ⟨h, Or.inl hcur⟩
  | some cur =>
    rw [loadTarget_of_some t mid cur hcur]
    by_cases hcm : cur ≠ "" ∧ cur ≠ mid
    · rw [if_pos hcm]
      refine ⟨MMInv_unload t cur h, Or.inl ?_⟩
      rw [unload_model_of_loaded t cur hcur]
    · rw [if_neg hcm]
      refine ⟨h, Or.inr ?_⟩
      have hne : cur ≠ "" := MMInv_loaded_ne_empty t h cur hcur
      have hceq : cur = mid := by
        by_contra hcon
        exact hcm ⟨hne, hcon⟩
      rw [hcur, hceq]

theorem MMInv_step (s : ModelManagerState) (op : MMOp) (h : MMInv s) :
    MMInv (stepMM s op) := by
  cases op with
  | unload mid => exact MMInv_unload s mid h
  | load mid =>
    show MMInv (match s.load_model mid with
      | .ok s1 => s1
      | .error _ => s)
    by_cases hm : hasModel s.models mid = true
    · rw [load_model_eq_ok s mid hm]
      obtain ⟨hinv, hl⟩ := MMInv_load_target s mid h
      exact MMInv_mark_loaded _ mid hinv
        (by rw [hasModel_load_target]; exact hm) hl
    · rw [load_model_eq_error s mid (by revert hm; cases hasModel s.models mid <;> simp)]
      exact h

theorem MMInv_runMM (ops : List MMOp) : ∀ s, MMInv s → MMInv (runMM s ops) := by
  induction ops with
  | nil => intro s h; exact h
  | cons op ops ih =>
    intro s h
    exact ih _ (MMInv_step s op h)

theorem runMM_append (s : ModelManagerState) (l1 l2 : List MMOp) :
    runMM s (l1 ++ l2) = runMM (runMM s l1) l2 := by
  induction l1 generalizing s with
  | nil => rfl
  | cons op l1 ih => simp [runMM, ih]

theorem length_le_one_of_nodup_const {l : List String} (hnd : l.Nodup)
    (a : String) (hall : ∀ x ∈ l, x = a) : l.length ≤ 1 := by
  match l with
  | [] => simp
  | [x] => simp
  | x :: y :: rest =>
    exfalso
    have hx := hall x (by simp)
    have hy := hall y (by simp)
    rw [List.nodup_cons] at hnd
    exact hnd.1 (by simp [hx, hy])

theorem loadedCount_le_one_of_MMInv (s : ModelManagerState) (h : MMInv s) :
    loadedCount s ≤ 1 := by
  obtain ⟨hnd, hp, -⟩ := h
  unfold loadedCount
  cases hload : s.loaded_model_id with
  | none =>
    have hnil : s.models.filter (fun p => p.2 = "loaded") = [] := by
      rw [List.filter_eq_nil_iff]
      intro p hpmem
      simp only [decide_eq_true_eq]
      intro hc
      have := ((hp p hpmem).2).1 hc
      rw [hload] at this
      exact Option.noConfusion this
    simp [hnil]
  | some mid =>
    have hsub : ((s.models.filter (fun p => p.2 = "loaded")).map Prod.fst).Nodup := by
      refine List.Nodup.sublist ?_ hnd
      exact List.Sublist.map Prod.fst (List.filter_sublist s.models)
    have hlen : ((s.models.filter (fun p => p.2 = "loaded")).map Prod.fst).length ≤ 1 := by
      refine length_le_one_of_nodup_const hsub mid ?_
      intro x hx
      rcases List.mem_map.1 hx with ⟨p, hpf, rfl⟩
      obtain ⟨hpmem, hpl⟩ := List.mem_filter.1 hpf
      simp only [decide_eq_true_eq] at hpl
      have := ((hp p hpmem).2).1 hpl
      rw [hload] at this
      exact (Option.some.inj this).symm
    simpa using hlen

theorem stepMM_load_sets_identity (t : ModelManagerState) (mid : String)
    (hm : hasModel t.models mid = true) :
    (stepMM t (MMOp.load mid)).loaded_model_id = some mid ∧
    statusOf (stepMM t (MMOp.load mid)).models mid = some "loaded" := by
  have hstep : stepMM t (MMOp.load mid)
      = { models := setStatus (loadTarget t mid).models mid "loaded",
          loaded_model_id := some mid } := by
    show (match t.load_model mid with
      | .ok s1 => s1
      | .error _ => t) = _
    rw [load_model_eq_ok t mid hm]
  rw [hstep]
  refine ⟨rfl, ?_⟩
  exact statusOf_setStatus_self _ mid "loaded" (by rw [hasModel_load_target]; exact hm)

/-- C2: from any well-formed model store, along any sequence of load and
unload calls at most one model carries status loaded at every intermediate
instant; after every successful load the reported loaded identity is
exactly the identity just loaded and its status is loaded; and a load
issued while a different model is loaded factors through an unload of that
model first. -/
theorem model_manager_single_loaded_identity (s0 : ModelManagerState)
    (ops : List MMOp) (h : MMInv s0) :
    (∀ n : Nat, loadedCount (runMM s0 (ops.take n)) ≤ 1) ∧
    (∀ (n : Nat) (mid : String),
      ops[n]? = some (MMOp.load mid) →
      hasModel (runMM s0 (ops.take n)).models mid = true →
      (runMM s0 (ops.take (n + 1))).loaded_model_id = some mid ∧
      statusOf (runMM s0 (ops.take (n + 1))).models mid = some "loaded") ∧
    (∀ (s : ModelManagerState) (cur mid : String),
      s.loaded_model_id = some cur → cur ≠ "" → cur ≠ mid →
      s.load_model mid = ((s.unload_model cur).1).load_model mid) := by
  refine ⟨?_, ?_, ?_⟩
  · intro n
    exact loadedCount_le_one_of_MMInv _ (MMInv_runMM _ _ h)
  · intro n mid hop hm
    have htake : ops.take (n + 1) = ops.take n ++ [MMOp.load mid] := by
      rw [List.take_succ, hop]
      rfl
    rw [htake, runMM_append]
    exact stepMM_load_sets_identity _ mid hm
  · intro s cur mid hc hne hnm
    have hu : (s.unload_model cur).1
        = { models := setStatus s.models cur "available", loaded_model_id := none } := by
      rw [unload_model_of_loaded s cur hc]
    have h1 : loadTarget s mid = (s.unload_model cur).1 := by
      rw [loadTarget_of_some s mid cur hc, if_pos ⟨hne, hnm⟩]
    have h2 : loadTarget (s.unload_model cur).1 mid = (s.unload_model cur).1 := by
      rw [hu]
      exact loadTarget_of_none _ mid rfl
    have h3 : hasModel (s.unload_model cur).1.models mid = hasModel s.models mid := by
      rw [hu]
      exact hasModel_setStatus s.models cur "available" mid
    unfold ModelManagerState.load_model
    rw [h1, h2, h3]

/-- Witness for C2 on a two-model store and the call sequence
load A, load B, load A. -/
theorem model_manager_single_loaded_identity_witness :
    MMInv (⟨[("A", "available"), ("B", "available")], none⟩ : ModelManagerState) ∧
    loadedCount (runMM ⟨[("A", "available"), ("B", "available")], none⟩
      [MMOp.load "A", MMOp.load "B", MMOp.load "A"]) ≤ 1 ∧
    (runMM (⟨[("A", "available"), ("B", "available")], none⟩ : ModelManagerState)
      [MMOp.load "A", MMOp.load "B", MMOp.load "A"]).loaded_model_id = some "A" := by
  have hinv : MMInv (⟨[("A", "available"), ("B", "available")], none⟩ : ModelManagerState) := by
    decide
  have h := model_manager_single_loaded_identity
    ⟨[("A", "available"), ("B", "available")], none⟩
    [MMOp.load "A", MMOp.load "B", MMOp.load "A"] hinv
  refine ⟨hinv, h.1 3, ?_⟩
  have := (h.2.1 2 "A" rfl (by decide)).1
  exact this

end AIdealNeo
